import Mathlib

/-!
Verification of the pitch-zone pipeline in `maincode.py`
(load → clean → assign zone → aggregate → render labels).

Numeric values are modelled as exact rationals (`ℚ`); a missing value
(pandas `NaN`) is modelled as `none` of an `Option`.  Tables are modelled
as lists of records; the column-aware loader steps are modelled separately
where column absence matters.
-/

namespace Baseball

/-- Strike zone boundaries (feet), from `maincode.py` line 9. -/
def LEFT : ℚ := -7083/10000

/-- Right edge of the strike zone rectangle. -/
def RIGHT : ℚ := 7083/10000

/-- Bottom edge of the strike zone rectangle, line 10. -/
def BOTTOM : ℚ := 3/2

/-- Top edge of the strike zone rectangle. -/
def TOP : ℚ := 7/2

/-- `assign_zone` from `maincode.py` lines 12–38.  A missing coordinate
(`pd.isna`) is `none`.  Returns -1 for missing coordinates, 0 when the
pitch is strictly outside the rectangle, otherwise a 3×3 grid cell 1..9
with inclusive upper-bound comparisons against the interior cut points. -/
def assign_zone (x z : Option ℚ) : Int :=
  match x, z with
  | none, _ => -1
  | some _, none => -1
  | some x, some z =>
    if x < LEFT ∨ x > RIGHT ∨ z < BOTTOM ∨ z > TOP then 0
    else
      let xb1 := LEFT + (RIGHT - LEFT)/3
      let xb2 := LEFT + 2*(RIGHT - LEFT)/3
      let zb1 := BOTTOM + (TOP - BOTTOM)/3
      let zb2 := BOTTOM + 2*(TOP - BOTTOM)/3
      let col : Int := if x ≤ xb1 then 1 else if x ≤ xb2 then 2 else 3
      let row_num : Int := if z ≤ zb1 then 1 else if z ≤ zb2 then 2 else 3
      (row_num - 1)*3 + col

/-- Column index 1..3 as described by the specification: inclusive
upper-bound comparison against cuts at 1/3 and 2/3 of the x span. -/
def specCol (x : ℚ) : Int :=
  if x ≤ LEFT + (RIGHT - LEFT)/3 then 1
  else if x ≤ LEFT + 2*(RIGHT - LEFT)/3 then 2
  else 3

/-- Row index 1..3 as described by the specification: inclusive
upper-bound comparison against cuts at 1/3 and 2/3 of the z span. -/
def specRow (z : ℚ) : Int :=
  if z ≤ BOTTOM + (TOP - BOTTOM)/3 then 1
  else if z ≤ BOTTOM + 2*(TOP - BOTTOM)/3 then 2
  else 3

/-- The zone value the specification prescribes for an in-rectangle pitch:
`(row-1)*3 + column`. -/
def specZone (x z : ℚ) : Int :=
  (specRow z - 1)*3 + specCol x

theorem specCol_bounds (x : ℚ) : 1 ≤ specCol x ∧ specCol x ≤ 3 := by
  unfold specCol
  split_ifs <;> omega

theorem specRow_bounds (z : ℚ) : 1 ≤ specRow z ∧ specRow z ≤ 3 := by
  unfold specRow
  split_ifs <;> omega

theorem specZone_bounds (x z : ℚ) : 1 ≤ specZone x z ∧ specZone x z ≤ 9 := by
  have hc := specCol_bounds x
  have hr := specRow_bounds z
  unfold specZone
  omega

/-- Inside the rectangle (boundary included), `assign_zone` follows the
3×3 grid formula. -/
theorem assign_zone_inside (x z : ℚ)
    (hx1 : LEFT ≤ x) (hx2 : x ≤ RIGHT) (hz1 : BOTTOM ≤ z) (hz2 : z ≤ TOP) :
    assign_zone (some x) (some z) = specZone x z := by
  have hcond : ¬(x < LEFT ∨ x > RIGHT ∨ z < BOTTOM ∨ z > TOP) := by
    push_neg
    exact ⟨hx1, hx2, hz1, hz2⟩
  simp only [assign_zone]
  rw [if_neg hcond]
  rfl

/-- C1: for in-rectangle coordinates the zone is the 3×3 grid value
`(row-1)*3 + column` with inclusive upper-bound bucket comparisons,
it lies in 1..9, and in particular (x=0, z=2.5) yields zone 5. -/
theorem c1_zone_grid (x z : ℚ)
    (hx1 : LEFT ≤ x) (hx2 : x ≤ RIGHT) (hz1 : BOTTOM ≤ z) (hz2 : z ≤ TOP) :
    assign_zone (some x) (some z) = specZone x z ∧
    1 ≤ assign_zone (some x) (some z) ∧ assign_zone (some x) (some z) ≤ 9 ∧
    assign_zone (some 0) (some (5/2)) = 5 := by
  have h := assign_zone_inside x z hx1 hx2 hz1 hz2
  have hb := specZone_bounds x z
  refine ⟨h, ?_, ?_, ?_⟩
  · rw [h]; exact hb.1
  · rw [h]; exact hb.2
  · norm_num [assign_zone, LEFT, RIGHT, BOTTOM, TOP]

/-- Witness for C1 at the interior center (0, 2.5). -/
theorem c1_zone_grid_witness :
    assign_zone (some 0) (some (5/2)) = specZone 0 (5/2) ∧
    1 ≤ assign_zone (some 0) (some (5/2)) ∧
    assign_zone (some 0) (some (5/2)) ≤ 9 ∧
    assign_zone (some 0) (some (5/2)) = 5 :=
  c1_zone_grid 0 (5/2) (by norm_num [LEFT]) (by norm_num [RIGHT])
    (by norm_num [BOTTOM]) (by norm_num [TOP])

/-- C2: a pitch strictly outside the rectangle gets zone 0; in
particular (x=-1, z=2.5) yields zone 0. -/
theorem c2_outside_zero (x z : ℚ)
    (h : x < LEFT ∨ x > RIGHT ∨ z < BOTTOM ∨ z > TOP) :
    assign_zone (some x) (some z) = 0 ∧
    assign_zone (some (-1)) (some (5/2)) = 0 := by
  constructor
  · simp only [assign_zone]
    rw [if_pos h]
  · norm_num [assign_zone, LEFT, RIGHT, BOTTOM, TOP]

/-- Witness for C2 at (x=-1, z=2.5). -/
theorem c2_outside_zero_witness :
    assign_zone (some (-1)) (some (5/2)) = 0 ∧
    assign_zone (some (-1)) (some (5/2)) = 0 :=
  c2_outside_zero (-1) (5/2) (Or.inl (by norm_num [LEFT]))

/-- C3: a missing coordinate yields zone -1, whatever the other
coordinate is. -/
theorem c3_missing_invalid (o : Option ℚ) :
    assign_zone none o = -1 ∧ assign_zone o none = -1 := by
  cases o <;> exact ⟨rfl, rfl⟩

/-- C5: `assign_zone` only ever returns a value in {-1, 0, 1, ..., 9}. -/
theorem c5_zone_range (x z : Option ℚ) :
    assign_zone x z ∈ ([-1, 0, 1, 2, 3, 4, 5, 6, 7, 8, 9] : List Int) := by
  match x, z with
  | none, o => simp [assign_zone]
  | some a, none => simp [assign_zone]
  | some a, some b =>
    by_cases h : a < LEFT ∨ a > RIGHT ∨ b < BOTTOM ∨ b > TOP
    · simp [assign_zone, if_pos h]
    · push_neg at h
      have heq := assign_zone_inside a b h.1 h.2.1 h.2.2.1 h.2.2.2
      rw [heq]
      have hb := specZone_bounds a b
      have h1 := hb.1
      have h2 := hb.2
      interval_cases h : specZone a b <;> simp

/-- C10: a pitch exactly on the rectangle's edge is treated as in-zone
(strict outside test), so its zone is in 1..9, never 0. -/
theorem c10_boundary_inside (x z : ℚ)
    (hx1 : LEFT ≤ x) (hx2 : x ≤ RIGHT) (hz1 : BOTTOM ≤ z) (hz2 : z ≤ TOP)
    (_hedge : x = LEFT ∨ x = RIGHT ∨ z = BOTTOM ∨ z = TOP) :
    1 ≤ assign_zone (some x) (some z) ∧ assign_zone (some x) (some z) ≤ 9 := by
  have h := assign_zone_inside x z hx1 hx2 hz1 hz2
  rw [h]
  exact specZone_bounds x z

/-- Witness for C10 on the left edge (x=LEFT, z=2.5). -/
theorem c10_boundary_inside_witness :
    1 ≤ assign_zone (some LEFT) (some (5/2)) ∧
    assign_zone (some LEFT) (some (5/2)) ≤ 9 :=
  c10_boundary_inside LEFT (5/2) le_rfl (by norm_num [LEFT, RIGHT])
    (by norm_num [BOTTOM]) (by norm_num [TOP]) (Or.inl rfl)

/-!
## Record-level pipeline

`load_and_prepare_data` after `pd.read_csv` succeeds with all critical
columns present (lines 47–53), and `aggregate_player_stats` (lines 55–61).
A row of the loaded frame carries the five critical columns; each cell is
an `Option` to model pandas `NaN`.
-/

/-- One row of the loaded data frame, restricted to the columns used by
the pipeline. -/
structure Pitch where
  player_name : Option String
  plate_x : Option ℚ
  plate_z : Option ℚ
  ba : Option ℚ
  xba : Option ℚ
deriving DecidableEq, Repr

/-- `df.dropna(subset=critical_cols)` row predicate, line 48: all five
critical cells are non-null. -/
def criticalOk (r : Pitch) : Bool :=
  r.player_name.isSome && r.plate_x.isSome && r.plate_z.isSome &&
    r.ba.isSome && r.xba.isSome

/-- A row after zone assignment (line 50 adds the `zone` column). -/
structure ZonedPitch where
  player_name : Option String
  zone : Int
  ba : Option ℚ
  xba : Option ℚ
deriving DecidableEq, Repr

/-- Line 50: `df['zone'] = df.apply(assign_zone, axis=1)`. -/
def addZone (r : Pitch) : ZonedPitch :=
  { player_name := r.player_name
    zone := assign_zone r.plate_x r.plate_z
    ba := r.ba
    xba := r.xba }

/-- Lines 48–51 of `load_and_prepare_data`: drop rows with a null
critical cell, assign zones, keep rows with `zone >= 0`. -/
def prepareRows (rows : List Pitch) : List ZonedPitch :=
  (((rows.filter criticalOk).map addZone).filter (fun r => r.zone ≥ 0))

/-- pandas mean of a column within a group: the mean of the non-null
values, or `NaN` (`none`) when there are none. -/
def listMean (l : List ℚ) : Option ℚ :=
  if l.isEmpty then none else some (l.sum / l.length)

/-- One row of the aggregate frame produced by `aggregate_player_stats`. -/
structure AggRow where
  player_name : Option String
  zone : Int
  avg_ba : Option ℚ
  avg_xba : Option ℚ
  count : ℕ
deriving DecidableEq, Repr

/-- The group of rows of `df` with the given player and zone. -/
def groupRows (df : List ZonedPitch) (p : Option String) (z : Int) :
    List ZonedPitch :=
  df.filter (fun r => decide (r.player_name = p ∧ r.zone = z))

/-- `aggregate_player_stats`, lines 55–61: group by `(player_name, zone)`
(pandas groupby drops null keys), then per group take the mean of the
non-null `ba` values, the mean of the non-null `xba` values, and the
count of non-null `ba` values (`aggfunc='count'` counts non-null cells). -/
def aggregate_player_stats (df : List ZonedPitch) : List AggRow :=
  (((df.filter (fun r => r.player_name.isSome)).map
      (fun r => (r.player_name, r.zone))).dedup).map
    (fun k =>
      let g := groupRows df k.1 k.2
      { player_name := k.1
        zone := k.2
        avg_ba := listMean (g.filterMap (·.ba))
        avg_xba := listMean (g.filterMap (·.xba))
        count := (g.filterMap (·.ba)).length })

/-- Every row surviving the pipeline has a non-null `ba` cell. -/
theorem prepareRows_ba_isSome (rows : List Pitch) (r : ZonedPitch)
    (hr : r ∈ prepareRows rows) : r.ba.isSome := by
  unfold prepareRows at hr
  have hr' := List.mem_of_mem_filter hr
  obtain ⟨p, hp, hpr⟩ := List.mem_map.mp hr'
  have hpc := List.of_mem_filter hp
  unfold criticalOk at hpc
  simp only [Bool.and_eq_true] at hpc
  rw [← hpr]
  exact hpc.1.2

/-- When every element's cell is non-null, `filterMap` of the cell keeps
one value per row. -/
theorem filterMap_length_of_all_isSome (l : List ZonedPitch)
    (f : ZonedPitch → Option ℚ) (h : ∀ r ∈ l, (f r).isSome) :
    (l.filterMap f).length = l.length := by
  induction l with
  | nil => rfl
  | cons a t ih =>
    have ha : (f a).isSome := h a (List.mem_cons_self a t)
    obtain ⟨v, hv⟩ := Option.isSome_iff_exists.mp ha
    rw [List.filterMap_cons, hv]
    simp only [List.length_cons]
    rw [ih (fun r hr => h r (List.mem_cons_of_mem a hr))]

/-- C4: every aggregate row's count equals the number of pipeline rows in
its (player, zone) group, and its means are the means over the non-missing
`ba` / `xba` values of those rows. -/
theorem c4_aggregate_counts_means (rows : List Pitch) (a : AggRow)
    (ha : a ∈ aggregate_player_stats (prepareRows rows)) :
    a.count = (groupRows (prepareRows rows) a.player_name a.zone).length ∧
    a.avg_ba =
      listMean ((groupRows (prepareRows rows) a.player_name a.zone).filterMap (·.ba)) ∧
    a.avg_xba =
      listMean ((groupRows (prepareRows rows) a.player_name a.zone).filterMap (·.xba)) := by
  unfold aggregate_player_stats at ha
  obtain ⟨k, hk, hka⟩ := List.mem_map.mp ha
  subst hka
  refine ⟨?_, rfl, rfl⟩
  apply filterMap_length_of_all_isSome
  intro r hr
  exact prepareRows_ba_isSome rows r (List.mem_of_mem_filter hr)

/-- A one-row input for the aggregation witness. -/
def rowsEx : List Pitch :=
  [{ player_name := some "A", plate_x := some 0, plate_z := some 2,
     ba := some 1, xba := some 0 }]

/-- The aggregate row the pipeline produces from `rowsEx`. -/
def aggEx : AggRow :=
  { player_name := some "A", zone := 2, avg_ba := some 1, avg_xba := some 0,
    count := 1 }

/-- Witness for C4 on a one-row input. -/
theorem c4_aggregate_counts_means_witness :
    aggEx.count = (groupRows (prepareRows rowsEx) aggEx.player_name aggEx.zone).length ∧
    aggEx.avg_ba =
      listMean ((groupRows (prepareRows rowsEx) aggEx.player_name aggEx.zone).filterMap (·.ba)) ∧
    aggEx.avg_xba =
      listMean ((groupRows (prepareRows rowsEx) aggEx.player_name aggEx.zone).filterMap (·.xba)) :=
  c4_aggregate_counts_means rowsEx aggEx (by
    norm_num [aggregate_player_stats, prepareRows, groupRows, addZone,
      criticalOk, listMean, assign_zone, LEFT, RIGHT, BOTTOM, TOP,
      rowsEx, aggEx, List.dedup, List.filter, List.filterMap]
    exact ⟨fun h => Option.noConfusion h, fun h => Option.noConfusion h⟩)

/-- The full in-memory pipeline of `main` on an already-read frame:
clean and zone-tag the rows (lines 47–51), then aggregate (lines 55–61). -/
def runPipeline (rows : List Pitch) : List AggRow :=
  aggregate_player_stats (prepareRows rows)

/-- C9: the pipeline is a pure function of its input rows: two runs on
the same unmodified input produce identical aggregate tables. -/
theorem c9_pipeline_deterministic (r1 r2 : List Pitch) (h : r1 = r2) :
    runPipeline r1 = runPipeline r2 := by
  rw [h]

/-- Witness for C9 on the concrete input `rowsEx`. -/
theorem c9_pipeline_deterministic_witness :
    rowsEx = rowsEx ∧ runPipeline rowsEx = runPipeline rowsEx :=
  ⟨rfl, c9_pipeline_deterministic rowsEx rowsEx rfl⟩

/-!
## Renderer label production

`create_strikezone_figure`, lines 63–147: the data-dependent part builds,
for the zones 1..9 and then 0 (the iteration order of `zone_centers`),
a text label per zone per trace, empty when the selected player has no
aggregate row for that zone.
-/

/-- `zone_centers` from lines 64–75: zone id with its center (x, y),
in dictionary insertion order. -/
def zone_centers : List (Int × ℚ × ℚ) :=
  [ (1, (LEFT + (RIGHT - LEFT)/6, BOTTOM + (TOP - BOTTOM)/6)),
    (2, (LEFT + (RIGHT - LEFT)/2, BOTTOM + (TOP - BOTTOM)/6)),
    (3, (LEFT + 5*(RIGHT - LEFT)/6, BOTTOM + (TOP - BOTTOM)/6)),
    (4, (LEFT + (RIGHT - LEFT)/6, BOTTOM + (TOP - BOTTOM)/2)),
    (5, (LEFT + (RIGHT - LEFT)/2, BOTTOM + (TOP - BOTTOM)/2)),
    (6, (LEFT + 5*(RIGHT - LEFT)/6, BOTTOM + (TOP - BOTTOM)/2)),
    (7, (LEFT + (RIGHT - LEFT)/6, BOTTOM + 5*(TOP - BOTTOM)/6)),
    (8, (LEFT + (RIGHT - LEFT)/2, BOTTOM + 5*(TOP - BOTTOM)/6)),
    (9, (LEFT + 5*(RIGHT - LEFT)/6, BOTTOM + 5*(TOP - BOTTOM)/6)),
    (0, (RIGHT + 3/10, BOTTOM)) ]

/-- Left-pad a 3-digit fractional part with zeros. -/
def pad3 (n : ℕ) : String :=
  if n < 10 then "00" ++ toString n
  else if n < 100 then "0" ++ toString n
  else toString n

/-- Render a rational with three decimal places, as Python's `:.3f`
does (numeric rounding abstracted to rounding on exact rationals). -/
def ratTo3dp (q : ℚ) : String :=
  let scaled : Int := round (q * 1000)
  let sign := if scaled < 0 then "-" else ""
  let n := scaled.natAbs
  sign ++ toString (n / 1000) ++ "." ++ pad3 (n % 1000)

/-- Format of a possibly-missing mean; Python renders a `NaN` float as
`nan`. -/
def fmtOpt3 : Option ℚ → String
  | none => "nan"
  | some q => ratTo3dp q

/-- The AVG-trace label for one zone, lines 100–108: the formatted
statistics of the first matching aggregate row, or `""` when the selected
player has no row for the zone. -/
def textAvgFor (player_data : List AggRow) (z : Int) : String :=
  match player_data.filter (fun r => decide (r.zone = z)) with
  | [] => ""
  | s :: _ => "AVG: " ++ fmtOpt3 s.avg_ba ++ "<br>Pitches: " ++ toString s.count

/-- The xAVG-trace label for one zone, lines 100–109. -/
def textXbaFor (player_data : List AggRow) (z : Int) : String :=
  match player_data.filter (fun r => decide (r.zone = z)) with
  | [] => ""
  | s :: _ => "xAVG: " ++ fmtOpt3 s.avg_xba

/-- The data-dependent output of `create_strikezone_figure`: the label
positions and texts of its two scatter traces. -/
structure FigureLabels where
  x_vals_avg : List ℚ
  y_vals_avg : List ℚ
  text_avg : List String
  x_vals_xba : List ℚ
  y_vals_xba : List ℚ
  text_xba : List String
deriving DecidableEq, Repr

/-- `create_strikezone_figure`, lines 94–136 (label production): filter
the aggregates to the selected player and build one label per zone in
`zone_centers` order for each trace. -/
def create_strikezone_figure (df_agg : List AggRow) (selected_player : String) :
    FigureLabels :=
  let player_data := df_agg.filter (fun r => decide (r.player_name = some selected_player))
  { x_vals_avg := zone_centers.map (fun c => c.2.1)
    y_vals_avg := zone_centers.map (fun c => c.2.2 + 1/20)
    text_avg := zone_centers.map (fun c => textAvgFor player_data c.1)
    x_vals_xba := zone_centers.map (fun c => c.2.1)
    y_vals_xba := zone_centers.map (fun c => c.2.2 - 1/20)
    text_xba := zone_centers.map (fun c => textXbaFor player_data c.1) }

/-- C8: for a player with no aggregate rows, every one of the 10 zone
labels (9 interior zones and the outside bucket) in both traces is the
empty string, and the figure is produced rather than an error. -/
theorem c8_empty_player_blank_labels (df_agg : List AggRow) (p : String)
    (h : ∀ r ∈ df_agg, r.player_name ≠ some p) :
    (create_strikezone_figure df_agg p).text_avg = List.replicate 10 "" ∧
    (create_strikezone_figure df_agg p).text_xba = List.replicate 10 "" := by
  have hpd : df_agg.filter (fun r => decide (r.player_name = some p)) = [] := by
    rw [List.filter_eq_nil_iff]
    intro a ha
    simp [h a ha]
  constructor <;>
    simp [create_strikezone_figure, hpd, textAvgFor, textXbaFor, zone_centers,
      List.replicate]

/-- Witness for C8: an aggregate table holding only a different player. -/
theorem c8_empty_player_blank_labels_witness :
    (∀ r ∈ [aggEx], r.player_name ≠ some "Nobody") ∧
    (create_strikezone_figure [aggEx] "Nobody").text_avg = List.replicate 10 "" ∧
    (create_strikezone_figure [aggEx] "Nobody").text_xba = List.replicate 10 "" :=
  ⟨by simp [aggEx], c8_empty_player_blank_labels [aggEx] "Nobody" (by simp [aggEx])⟩

/-!
## Column-aware loader model

`load_and_prepare_data`, lines 40–53, at the level where the set of
columns and the file system matter.  A cell is a string, an exact
rational, or `NaN`; a row is an association list keyed by column name.
`pd.read_csv` raises `pandas.errors.ParserError` on malformed content,
and `df.dropna(subset=...)` raises `KeyError` when a subset label is
absent from the frame's columns.
-/

/-- A data-frame cell: a string, a number, or pandas `NaN`. -/
inductive Val where
  | str (s : String)
  | num (q : ℚ)
  | na
deriving DecidableEq, Repr

/-- A row of a frame: cells keyed by column name. -/
def TableRow : Type := List (String × Val)

instance : DecidableEq TableRow := by
  unfold TableRow
  infer_instance

/-- A data frame: its column names and its rows. -/
structure Table where
  cols : List String
  rows : List TableRow
deriving DecidableEq

/-- Read the cell of column `c`; an absent cell reads as `NaN`. -/
def getCell (r : TableRow) (c : String) : Val :=
  (List.lookup c r).getD Val.na

/-- Overwrite (or create) the cell of column `c`. -/
def setCell (r : TableRow) (c : String) (v : Val) : TableRow :=
  r.filter (fun p => !(p.1 == c)) ++ [(c, v)]

/-- `critical_cols` from line 47. -/
def critical_cols : List String := ["player_name", "plate_x", "plate_z", "ba", "xba"]

/-- `df.dropna(subset=subset)`, line 48: when every subset label is a
column of the frame, keep the rows whose subset cells are all non-null;
when a subset label is missing, pandas raises `KeyError`. -/
def dropnaSubset (subset : List String) (t : Table) : Except String Table :=
  if subset.all (fun c => t.cols.contains c) then
    Except.ok
      { cols := t.cols
        rows := t.rows.filter (fun r => subset.all (fun c => decide (getCell r c ≠ Val.na))) }
  else Except.error "KeyError"

/-- Read a numeric cell as a coordinate; a `NaN`, string or absent cell
is missing (`pd.isna` semantics for the coordinate columns). -/
def getNum (r : TableRow) (c : String) : Option ℚ :=
  match getCell r c with
  | Val.num q => some q
  | _ => none

/-- Line 50: `df['zone'] = df.apply(assign_zone, axis=1)`. -/
def addZoneCol (t : Table) : Table :=
  { cols := if t.cols.contains "zone" then t.cols else t.cols ++ ["zone"]
    rows := t.rows.map (fun r =>
      setCell r "zone" (Val.num (assign_zone (getNum r "plate_x") (getNum r "plate_z")))) }

/-- Line 51: `df = df[df['zone'] >= 0]`. -/
def filterZone (t : Table) : Table :=
  { cols := t.cols
    rows := t.rows.filter (fun r =>
      match getCell r "zone" with
      | Val.num q => decide (q ≥ 0)
      | _ => false) }

/-- The errors `load_and_prepare_data` can raise: `FileNotFoundError`
(line 42), `pandas.errors.ParserError` from `read_csv` (line 44), and
`KeyError` from `dropna(subset=...)` (line 48).  The code has no
unsupported-format error. -/
inductive LoadError where
  | fileNotFound
  | parseError
  | keyError
deriving DecidableEq, Repr

/-- What a path holds: content `read_csv` parses into a frame, or
malformed content on which it raises. -/
inductive FileData where
  | csv (t : Table)
  | malformed
deriving DecidableEq

/-- `load_and_prepare_data`, lines 40–53, over a file system mapping
paths to contents: `FileNotFoundError` when the path is absent, a parse
error on malformed content, then dropna on the critical columns, zone
assignment and the `zone >= 0` filter.  `read_csv` is applied to any
existing path whatever its extension. -/
def load_and_prepare_data (fs : String → Option FileData) (filename : String) :
    Except LoadError Table :=
  match fs filename with
  | none => Except.error LoadError.fileNotFound
  | some FileData.malformed => Except.error LoadError.parseError
  | some (FileData.csv df) =>
    match dropnaSubset critical_cols df with
    | Except.error _ => Except.error LoadError.keyError
    | Except.ok df2 => Except.ok (filterZone (addZoneCol df2))

/-- A frame with none of the critical columns. -/
def tableNoCrit : Table :=
  { cols := ["foo"], rows := [[("foo", Val.num 1)]] }

/-- A file system holding `f.csv` with content lacking every critical
column. -/
def fsNoCrit : String → Option FileData :=
  fun s => if s = "f.csv" then some (FileData.csv tableNoCrit) else none

/-- C6 counterexample: on an input with none of the critical columns the
loader fails with `KeyError` — it neither skips the filtering step nor
emits a non-fatal warning. -/
theorem c6_counterexample :
    load_and_prepare_data fsNoCrit "f.csv" = Except.error LoadError.keyError := by
  rfl

/-- C6 amended: when every critical column is present the loader's
filter keeps exactly the rows whose critical cells are all non-null;
when a critical column is absent, `dropna(subset=...)` raises a fatal
`KeyError` instead of warning. -/
theorem c6_critical_filter (t : Table) :
    ((∀ c ∈ critical_cols, c ∈ t.cols) →
      ∃ t', dropnaSubset critical_cols t = Except.ok t' ∧ t'.cols = t.cols ∧
        ∀ r, r ∈ t'.rows ↔ r ∈ t.rows ∧ ∀ c ∈ critical_cols, getCell r c ≠ Val.na) ∧
    ((∃ c ∈ critical_cols, c ∉ t.cols) →
      dropnaSubset critical_cols t = Except.error "KeyError") := by
  constructor
  · intro h
    have hall : critical_cols.all (fun c => t.cols.contains c) = true := by
      rw [List.all_eq_true]
      intro c hc
      simpa using h c hc
    have hok : dropnaSubset critical_cols t =
        Except.ok
          { cols := t.cols
            rows := t.rows.filter
              (fun r => critical_cols.all (fun c => decide (getCell r c ≠ Val.na))) } := by
      unfold dropnaSubset
      rw [if_pos hall]
    refine ⟨_, hok, rfl, ?_⟩
    · intro r
      constructor
      · intro hr
        refine ⟨List.mem_of_mem_filter hr, ?_⟩
        have hp := List.of_mem_filter hr
        rw [List.all_eq_true] at hp
        intro c hc
        simpa using hp c hc
      · intro ⟨hr, hc⟩
        apply List.mem_filter.mpr
        refine ⟨hr, ?_⟩
        rw [List.all_eq_true]
        intro c hcc
        simpa using hc c hcc
  · intro ⟨c, hc, hnc⟩
    unfold dropnaSubset
    rw [if_neg]
    intro hall
    rw [List.all_eq_true] at hall
    exact hnc (by simpa using hall c hc)

/-- A frame carrying exactly the critical columns and no rows. -/
def tableCritEmpty : Table :=
  { cols := critical_cols, rows := [] }

/-- Witness for C6 at a frame with all critical columns present. -/
theorem c6_critical_filter_witness :
    (∀ c ∈ critical_cols, c ∈ tableCritEmpty.cols) ∧
    ∃ t', dropnaSubset critical_cols tableCritEmpty = Except.ok t' ∧
      t'.cols = tableCritEmpty.cols ∧
      ∀ r, r ∈ t'.rows ↔ r ∈ tableCritEmpty.rows ∧
        ∀ c ∈ critical_cols, getCell r c ≠ Val.na :=
  ⟨by decide, (c6_critical_filter tableCritEmpty).1 (by decide)⟩

/-- A file system holding a well-formed table under a non-CSV,
non-spreadsheet extension. -/
def fsJson : String → Option FileData :=
  fun s => if s = "data.json" then some (FileData.csv tableCritEmpty) else none

/-- C7 counterexample: a path with extension `.json` (neither CSV nor
spreadsheet) loads successfully — the code performs no extension check
and has no `UnsupportedFormatError`. -/
theorem c7_counterexample :
    (load_and_prepare_data fsJson "data.json").isOk = true := by
  decide

/-- C7 amended: the loader fails with `FileNotFoundError` exactly when
the path is absent, and with a parse error on malformed content; no
extension check is performed. -/
theorem c7_file_errors (fs : String → Option FileData) (fn : String) :
    (load_and_prepare_data fs fn = Except.error LoadError.fileNotFound ↔ fs fn = none) ∧
    (fs fn = some FileData.malformed →
      load_and_prepare_data fs fn = Except.error LoadError.parseError) := by
  cases hfs : fs fn with
  | none =>
    refine ⟨⟨fun _ => rfl, fun _ => ?_⟩, fun h => absurd h (by simp)⟩
    simp [load_and_prepare_data, hfs]
  | some fd =>
    cases fd with
    | malformed =>
      have hl : load_and_prepare_data fs fn = Except.error LoadError.parseError := by
        simp [load_and_prepare_data, hfs]
      refine ⟨⟨fun h => ?_, fun h => absurd h (by simp)⟩, fun _ => hl⟩
      rw [hl] at h
      exact absurd h (by simp)
    | csv df =>
      cases hd : dropnaSubset critical_cols df with
      | error e =>
        have hl : load_and_prepare_data fs fn = Except.error LoadError.keyError := by
          simp [load_and_prepare_data, hfs, hd]
        refine ⟨⟨fun h => ?_, fun h => absurd h (by simp)⟩,
          fun h => absurd h (by simp)⟩
        rw [hl] at h
        exact absurd h (by simp)
      | ok df2 =>
        have hl : load_and_prepare_data fs fn = Except.ok (filterZone (addZoneCol df2)) := by
          simp [load_and_prepare_data, hfs, hd]
        refine ⟨⟨fun h => ?_, fun h => absurd h (by simp)⟩,
          fun h => absurd h (by simp)⟩
        rw [hl] at h
        exact absurd h (by simp)

/-- Witness for C7 over the `fsJson` file system: a present path is not
reported missing, and an absent path is. -/
theorem c7_file_errors_witness :
    ((load_and_prepare_data fsJson "absent.csv" = Except.error LoadError.fileNotFound ↔
        fsJson "absent.csv" = none) ∧
      (fsJson "absent.csv" = some FileData.malformed →
        load_and_prepare_data fsJson "absent.csv" = Except.error LoadError.parseError)) ∧
    fsJson "absent.csv" = none ∧
    load_and_prepare_data fsJson "absent.csv" = Except.error LoadError.fileNotFound := by
  refine ⟨c7_file_errors fsJson "absent.csv", by decide, ?_⟩
  exact (c7_file_errors fsJson "absent.csv").1.mpr (by decide)

end Baseball
